import Mathlib

/-!
Shallow embedding of the tichu-rs card model (src/card.rs) and hand
classification engine (src/hand.rs, plus the duplicated draft in
src/main.rs), together with theorems settling the specification claims.

Rust panics are modelled by `Option`: a function that can panic returns
`none` exactly on the inputs where the Rust code aborts, and `some r`
where the Rust code returns `r`.  Functions that cannot panic keep their
plain return types.
-/

namespace Tichu

/-- RegularCardValue from src/card.rs: ordered enumeration Two(2)..Ace(14). -/
inductive RegularCardValue where
  | Two
  | Three
  | Four
  | Five
  | Six
  | Seven
  | Eight
  | Nine
  | Ten
  | Jack
  | Queen
  | King
  | Ace
  deriving DecidableEq

/-- RegularCardValue::numeric_value: the discriminant value 2..14. -/
def RegularCardValue.numeric_value : RegularCardValue → Nat
  | .Two => 2
  | .Three => 3
  | .Four => 4
  | .Five => 5
  | .Six => 6
  | .Seven => 7
  | .Eight => 8
  | .Nine => 9
  | .Ten => 10
  | .Jack => 11
  | .Queen => 12
  | .King => 13
  | .Ace => 14

/-- RegularCardSuite from src/card.rs, in declaration (= derived Ord) order. -/
inductive RegularCardSuite where
  | Heart
  | Diamond
  | Spade
  | Clubs
  deriving DecidableEq

/-- Position of a suite in the Rust declaration order (derived Ord). -/
def RegularCardSuite.idx : RegularCardSuite → Nat
  | .Heart => 0
  | .Diamond => 1
  | .Spade => 2
  | .Clubs => 3

/-- SpecialCardType from src/card.rs, in declaration (= derived Ord) order. -/
inductive SpecialCardType where
  | Dragon
  | Phoenix
  | One
  | Dog
  deriving DecidableEq

/-- Position of a special card type in the Rust declaration order. -/
def SpecialCardType.idx : SpecialCardType → Nat
  | .Dragon => 0
  | .Phoenix => 1
  | .One => 2
  | .Dog => 3

/-- Card from src/card.rs: SpecialCard(SpecialCardType) or
RegularCard(RegularCardValue, RegularCardSuite).  The Rust derived Ord
places every SpecialCard before every RegularCard (declaration order). -/
inductive Card where
  | SpecialCard (t : SpecialCardType)
  | RegularCard (v : RegularCardValue) (s : RegularCardSuite)
  deriving DecidableEq

/-- Measure used only for the termination of the single-card comparison:
the Rust reverse-comparison arm recurses from a RegularCard first argument
to a SpecialCard first argument. -/
def Card.variantRank : Card → Nat
  | .SpecialCard _ => 0
  | .RegularCard _ _ => 1

/-- Card::can_be_played_on_top_of_single_card from src/card.rs, arm for
arm.  The final catch-all arm is Rust's `_ => panic!()`, reached exactly
for (Phoenix, Phoenix); the reverse-comparison arm matches a RegularCard
against a SpecialCard, the only shape that reaches it in the Rust match. -/
def Card.can_be_played_on_top_of_single_card : Card → Card → Option Bool
  | .RegularCard self_value _, .RegularCard other_value _ =>
    some (decide (other_value.numeric_value < self_value.numeric_value))
  | .SpecialCard .Dragon, _ => some true
  | .SpecialCard .Phoenix, .RegularCard _ _ => some true
  | .RegularCard _ _, .SpecialCard .Phoenix => some true
  | .SpecialCard .Phoenix, .SpecialCard .One => some true
  | .SpecialCard .Phoenix, .SpecialCard .Dog => some true
  | .SpecialCard .Phoenix, .SpecialCard .Dragon => some false
  | .SpecialCard .One, .SpecialCard .Dog => some true
  | .SpecialCard .One, _ => some false
  | .SpecialCard .Dog, _ => some false
  | this_card@(.RegularCard _ _), other_card@(.SpecialCard _) =>
    (can_be_played_on_top_of_single_card other_card this_card).map not
  | _, _ => none
termination_by c1 _ => c1.variantRank
decreasing_by subst_vars; simp [Card.variantRank]

/-- Card::is_valid_in_multi_card_hand: RegularCard, Phoenix and One only. -/
def Card.is_valid_in_multi_card_hand : Card → Bool
  | .RegularCard _ _ => true
  | .SpecialCard .Phoenix => true
  | .SpecialCard .One => true
  | _ => false

/-- Card::value: Some for a RegularCard, None otherwise. -/
def Card.value : Card → Option RegularCardValue
  | .RegularCard v _ => some v
  | _ => none

/-- Card::numeric_value: One has 1, RegularCard its rank, others None. -/
def Card.numeric_value : Card → Option Nat
  | .SpecialCard .One => some 1
  | .RegularCard v _ => some v.numeric_value
  | _ => none

/-- Card::suite: Some for a RegularCard, None otherwise. -/
def Card.suite : Card → Option RegularCardSuite
  | .RegularCard _ s => some s
  | _ => none

/-- Card::score from src/card.rs. -/
def Card.score : Card → Int
  | .RegularCard .King _ => 10
  | .RegularCard .Ten _ => 10
  | .RegularCard .Five _ => 5
  | .SpecialCard .Dragon => 25
  | .SpecialCard .Phoenix => -25
  | _ => 0

/-- Predicate for Phoenix, used by Hand::num_phoenices. -/
def Card.isPhoenix : Card → Bool
  | .SpecialCard .Phoenix => true
  | _ => false

/-- The function iter_all_equal (declared in src/main.rs and used via
crate::util in src/hand.rs): Some of the first element when all elements
are equal, None for the empty sequence or when two elements differ. -/
def iter_all_equal {α : Type} [DecidableEq α] : List α → Option α
  | [] => none
  | x :: xs => if xs.all (fun y => y = x) then some x else none

/-- HandType from src/hand.rs. -/
inductive HandType where
  | SingleCard
  | Pair
  | Triple
  | Straight
  | StraightOfPairs
  | FullHouse
  | QuadrupleBomb
  | StraightBomb
  deriving DecidableEq

/-- Hand from src/hand.rs: a tuple struct wrapping a Vec of cards. -/
structure Hand where
  cards : List Card
  deriving DecidableEq

/-- Injective key realising the Rust derived total order on Card:
all SpecialCards (by type declaration order) before all RegularCards
(lexicographically by value then suite). -/
def cardKey : Card → Nat
  | .SpecialCard t => t.idx
  | .RegularCard v s => 4 + 4 * v.numeric_value + s.idx

/-- Insertion step of the ascending sort by the derived Card order. -/
def insertCard (c : Card) : List Card → List Card
  | [] => [c]
  | x :: xs => if cardKey c ≤ cardKey x then c :: x :: xs else x :: insertCard c xs

/-- Ascending sort by the derived Card order, as performed by
Vec::sort_unstable in Hand::new (the key is injective, so the sorted
result is unique and stability is irrelevant). -/
def sortCards : List Card → List Card
  | [] => []
  | c :: cs => insertCard c (sortCards cs)

/-- Hand::new: sort the cards ascending and wrap them. -/
def Hand.new (cards : List Card) : Hand := ⟨sortCards cards⟩

/-- Hand::num_phoenices: number of Phoenix cards in the hand. -/
def Hand.num_phoenices (h : Hand) : Nat := h.cards.countP Card.isPhoenix

/-- Adjacent pairs of the card list, as produced by slice::windows(2). -/
def windows2 (l : List Card) : List (Card × Card) := l.zip l.tail

/-- Hand::is_valid_quadruple_bomb: exactly four RegularCards of one value. -/
def Hand.is_valid_quadruple_bomb (h : Hand) : Bool :=
  match h.cards with
  | [Card.RegularCard _ _, Card.RegularCard _ _, Card.RegularCard _ _,
     Card.RegularCard _ _] =>
    (iter_all_equal (h.cards.map Card.value)).isSome
  | _ => false

/-- Test used by Hand::is_valid_straight to reject two adjacent cards with
equal numeric values (both values must be present for the zip to fire). -/
def sameAdjacentValue (p : Card × Card) : Bool :=
  match p.1.numeric_value, p.2.numeric_value with
  | some x, some y => x = y
  | _, _ => false

/-- The phoenix-need sum of Hand::is_valid_straight: for each adjacent pair
with both numeric values present, value2 - value1 - 1 gaps are added; the
usize subtraction panics (none) when value2 is not larger than value1,
which can only happen on an unsorted card list.  Pairs involving a card
without a numeric value are skipped by the filter_map. -/
def straightNeeded : List (Card × Card) → Option Nat
  | [] => some 0
  | (a, b) :: rest =>
    match a.numeric_value, b.numeric_value with
    | some x, some y =>
      if x < y then (straightNeeded rest).map (fun n => (y - x - 1) + n) else none
    | _, _ => straightNeeded rest

/-- Hand::is_valid_straight: reject equal adjacent numeric values, then
require at least 5 cards and enough phoenixes to cover the gaps. -/
def Hand.is_valid_straight (h : Hand) : Option Bool :=
  if (windows2 h.cards).any sameAdjacentValue then some false
  else
    (straightNeeded (windows2 h.cards)).map
      (fun needed =>
        decide (5 ≤ h.cards.length) && decide (needed ≤ h.num_phoenices))

/-- Hand::is_valid_straight_bomb: a valid straight with zero phoenixes and
all cards of one suite (Option values compared, so every card must be a
RegularCard of the same suite for iter_all_equal to succeed on some). -/
def Hand.is_valid_straight_bomb (h : Hand) : Option Bool :=
  (h.is_valid_straight).map
    (fun b =>
      b && decide (h.num_phoenices = 0) &&
        (iter_all_equal (h.cards.map Card.suite)).isSome)

/-- Hand::is_valid_single_card: exactly one card. -/
def Hand.is_valid_single_card (h : Hand) : Bool := h.cards.length = 1

/-- Hand::is_valid_pair: two RegularCards of one value, or Phoenix plus
one RegularCard (Phoenix sorts first). -/
def Hand.is_valid_pair (h : Hand) : Bool :=
  match h.cards with
  | [Card.RegularCard _ _, Card.RegularCard _ _] =>
    (iter_all_equal (h.cards.map Card.value)).isSome
  | [Card.SpecialCard .Phoenix, Card.RegularCard _ _] => true
  | _ => false

/-- Hand::is_valid_triple: three equal RegularCards, or Phoenix plus two
equal RegularCards. -/
def Hand.is_valid_triple (h : Hand) : Bool :=
  match h.cards with
  | [Card.RegularCard v1 _, Card.RegularCard v2 _, Card.RegularCard v3 _] =>
    v1 == v2 && v2 == v3
  | [Card.SpecialCard .Phoenix, Card.RegularCard v1 _, Card.RegularCard v2 _] =>
    v1 == v2
  | _ => false

/-- Consecutive grouping of the card list by numeric value with group
counts, as produced by Itertools::chunk_by (group_by in the main.rs
draft). -/
def chunkByNv : List Card → List (Option Nat × Nat)
  | [] => []
  | c :: cs =>
    match chunkByNv cs with
    | [] => [(c.numeric_value, 1)]
    | (k, n) :: rest =>
      if c.numeric_value = k then (k, n + 1) :: rest
      else (c.numeric_value, 1) :: (k, n) :: rest

/-- The num_cards_by_value map of Hand::is_valid_straight_of_pairs: keep
groups with a numeric key, drop groups of more than two cards. -/
def sopEntries (l : List Card) : List (Nat × Nat) :=
  (chunkByNv l).filterMap
    (fun kn =>
      match kn.1 with
      | some v => if 2 < kn.2 then none else some (v, kn.2)
      | none => none)

/-- HashMap lookup with default 0: on duplicate keys the later insertion
wins, hence the reversed find. -/
def countFor (entries : List (Nat × Nat)) (v : Nat) : Nat :=
  match entries.reverse.find? (fun e => e.1 == v) with
  | some e => e.2
  | none => 0

/-- The accumulation loop of Hand::is_valid_straight_of_pairs over the
value range; none models the early `return false` for a count above two
(dead in practice, since such groups were dropped from the entries). -/
def sopLoop (entries : List (Nat × Nat)) : List Nat → Option Nat
  | [] => some 0
  | v :: vs =>
    let c := countFor entries v
    if 2 < c then none
    else (sopLoop entries vs).map (fun n => (2 - c) + n)

/-- Inclusive range first..=last as a list (empty when last < first). -/
def rangeIncl (a b : Nat) : List Nat := (List.range (b + 1 - a)).map (fun i => a + i)

/-- The last_value computation of Hand::is_valid_straight_of_pairs:
`.map(|card| card.numeric_value().unwrap()).next_back()` unwraps the
numeric value of the last card, panicking (outer none) when the last card
has no numeric value; the empty list yields Some of nothing (inner none)
without panicking. -/
def lastNumericUnwrapped (l : List Card) : Option (Option Nat) :=
  match l.getLast? with
  | none => some none
  | some c =>
    match c.numeric_value with
    | some v => some (some v)
    | none => none

/-- Hand::is_valid_straight_of_pairs from src/hand.rs.  first_value is the
first numeric value in iteration order; last_value is computed eagerly
before the early returns and panics when the last card is non-numeric. -/
def Hand.is_valid_straight_of_pairs (h : Hand) : Option Bool :=
  let first_value := (h.cards.filterMap Card.numeric_value).head?
  match lastNumericUnwrapped h.cards with
  | none => none
  | some last_value =>
    match first_value with
    | none => some false
    | some f =>
      match last_value with
      | none => some false
      | some l =>
        match sopLoop (sopEntries h.cards) (rangeIncl f l) with
        | none => some false
        | some needed => some (decide (needed ≤ h.num_phoenices))

/-- Hand::is_valid_full_house: five RegularCards split 2/3 sharing the
middle card, or Phoenix plus four RegularCards with three equal among the
four and the outer values distinct. -/
def Hand.is_valid_full_house (h : Hand) : Bool :=
  match h.cards with
  | [Card.RegularCard v1 _, Card.RegularCard v2 _, Card.RegularCard v3 _,
     Card.RegularCard v4 _, Card.RegularCard v5 _] =>
    v1 == v2 && v4 == v5 && (v3 == v2 || v3 == v4)
  | [Card.SpecialCard .Phoenix, Card.RegularCard v1 _, Card.RegularCard v2 _,
     Card.RegularCard v3 _, Card.RegularCard v4 _] =>
    ((v1 == v2 && v2 == v3) || (v1 == v2 && v3 == v4) ||
      (v2 == v3 && v3 == v4)) && !(v1 == v4)
  | _ => false

/-- Hand::hand_type from src/hand.rs: reject a multi-card hand containing
a card invalid there, then test the predicates in strict priority order.
The outer Option records a panic escaping from is_valid_straight or
is_valid_straight_of_pairs; the inner Option is the Rust return value. -/
def Hand.hand_type (h : Hand) : Option (Option HandType) :=
  if 1 < h.cards.length ∧ ¬ h.cards.all Card.is_valid_in_multi_card_hand then
    some none
  else if h.is_valid_quadruple_bomb then some (some HandType.QuadrupleBomb)
  else
    match h.is_valid_straight_bomb with
    | none => none
    | some true => some (some HandType.StraightBomb)
    | some false =>
      if h.is_valid_single_card then some (some HandType.SingleCard)
      else if h.is_valid_pair then some (some HandType.Pair)
      else if h.is_valid_triple then some (some HandType.Triple)
      else
        match h.is_valid_straight with
        | none => none
        | some true => some (some HandType.Straight)
        | some false =>
          match h.is_valid_straight_of_pairs with
          | none => none
          | some true => some (some HandType.StraightOfPairs)
          | some false =>
            if h.is_valid_full_house then some (some HandType.FullHouse)
            else some none

/-- Hand::relevant_card_value from src/hand.rs.  For every type except
FullHouse the last card is taken (unwrap panics on an empty hand); for
FullHouse index 2 or 3 is taken depending on whether the hand starts with
a RegularCard or the Phoenix, any other first card panicking.  The final
map panics when the selected card is not a RegularCard. -/
def Hand.relevant_card_value (h : Hand) : Option (Option RegularCardValue) :=
  match h.hand_type with
  | none => none
  | some none => some none
  | some (some t) =>
    match t with
    | HandType.FullHouse =>
      match h.cards[0]? with
      | some (Card.RegularCard _ _) =>
        match h.cards[2]? with
        | some (Card.RegularCard v _) => some (some v)
        | _ => none
      | some (Card.SpecialCard .Phoenix) =>
        match h.cards[3]? with
        | some (Card.RegularCard v _) => some (some v)
        | _ => none
      | _ => none
    | _ =>
      match h.cards.getLast? with
      | some (Card.RegularCard v _) => some (some v)
      | _ => none

/-- Hand::is_bomb: the hand type is StraightBomb or QuadrupleBomb. -/
def Hand.is_bomb (h : Hand) : Option Bool :=
  (h.hand_type).map
    (fun t =>
      match t with
      | some HandType.StraightBomb => true
      | some HandType.QuadrupleBomb => true
      | _ => false)

/-- Hand::higher_value_than: zip of both relevant values compared, with
false when either hand has no relevant value; panics propagate. -/
def Hand.higher_value_than (h o : Hand) : Option Bool :=
  match h.relevant_card_value with
  | none => none
  | some a =>
    match o.relevant_card_value with
    | none => none
    | some b =>
      match a, b with
      | some x, some y => some (decide (y.numeric_value < x.numeric_value))
      | _, _ => some false

/-- Hand::can_be_played_on from src/hand.rs: a bomb beats any non-bomb,
bombs compare by length then value, and a non-bomb beats only the same
hand type of the same length with a lower relevant value. -/
def Hand.can_be_played_on (h o : Hand) : Option Bool :=
  match h.is_bomb with
  | none => none
  | some true =>
    match o.is_bomb with
    | none => none
    | some true =>
      if o.cards.length < h.cards.length then some true
      else if h.cards.length = o.cards.length then h.higher_value_than o
      else some false
    | some false => some true
  | some false =>
    match h.hand_type with
    | none => none
    | some self_type =>
      match o.hand_type with
      | none => none
      | some other_type =>
        if self_type = other_type then
          if h.cards.length = o.cards.length then h.higher_value_than o
          else some false
        else some false

/-- Hand::can_be_played_on as duplicated in src/main.rs (lines 355-366):
identical bomb handling, but the non-bomb branch omits the hand-type
equality test.  The helper functions it calls are textually identical to
the src/hand.rs ones, so they are shared here. -/
def Main.can_be_played_on (h o : Hand) : Option Bool :=
  match h.is_bomb with
  | none => none
  | some true =>
    match o.is_bomb with
    | none => none
    | some true =>
      if o.cards.length < h.cards.length then some true
      else if h.cards.length = o.cards.length then h.higher_value_than o
      else some false
    | some false => some true
  | some false =>
    if h.cards.length = o.cards.length then h.higher_value_than o
    else some false

end Tichu

namespace Tichu

/-- Helper for the irreflexivity claim: comparing a hand's relevant value
with itself never yields true; it yields false, or propagates a panic of
relevant_card_value. -/
theorem higher_value_than_self (h : Hand) :
    h.higher_value_than h = some false ∨ h.higher_value_than h = none := by
  unfold Hand.higher_value_than
  cases hr : h.relevant_card_value with
  | none => exact Or.inr rfl
  | some a =>
    cases a with
    | none => exact Or.inl rfl
    | some x => exact Or.inl (by simp)

/-- Claim C7 (amended): can_be_played_on never returns true on an
identical copy of the hand; it returns false, except that the call panics
(none) when relevant_card_value panics, e.g. on a single special card. -/
theorem can_be_played_on_never_beats_itself (h : Hand) :
    h.can_be_played_on h = some false ∨ h.can_be_played_on h = none := by
  unfold Hand.can_be_played_on
  cases hb : h.is_bomb with
  | none => exact Or.inr rfl
  | some bv =>
    cases bv with
    | true =>
      simp only [lt_self_iff_false, if_false, eq_self_iff_true, if_true]
      exact higher_value_than_self h
    | false =>
      cases ht : h.hand_type with
      | none => exact Or.inr rfl
      | some st =>
        simp only [eq_self_iff_true, if_true]
        exact higher_value_than_self h

/-- Claim C7 counterexample: on the single-Dragon hand the comparison with
an identical copy panics inside relevant_card_value instead of returning
false. -/
theorem can_be_played_on_self_panics_on_dragon :
    Hand.can_be_played_on ⟨[Card.SpecialCard SpecialCardType.Dragon]⟩
      ⟨[Card.SpecialCard SpecialCardType.Dragon]⟩ ≠ some false := by
  decide

/-- Claim C6: a hand classified as QuadrupleBomb or StraightBomb beats any
hand classified as a non-bomb type, and that hand never beats the bomb. -/
theorem bomb_dominance (b h : Hand)
    (hb : b.hand_type = some (some HandType.QuadrupleBomb) ∨
          b.hand_type = some (some HandType.StraightBomb))
    (t : HandType) (hh : h.hand_type = some (some t))
    (ht1 : t ≠ HandType.QuadrupleBomb) (ht2 : t ≠ HandType.StraightBomb) :
    b.can_be_played_on h = some true ∧ h.can_be_played_on b = some false := by
  have hbomb : b.is_bomb = some true := by
    rcases hb with hb | hb <;> (unfold Hand.is_bomb; rw [hb]; rfl)
  have hnotbomb : h.is_bomb = some false := by
    unfold Hand.is_bomb
    rw [hh]
    cases t <;> simp_all
  constructor
  · unfold Hand.can_be_played_on
    rw [hbomb, hnotbomb]
  · rcases hb with hb | hb <;>
      (unfold Hand.can_be_played_on
       simp only [hnotbomb, hh, hb]
       simp [ht1, ht2])

/-- Claim C6 witness: the quadruple bomb of Twos beats a single Three and
is not beaten by it. -/
theorem bomb_dominance_witness :
    Hand.can_be_played_on
        (Hand.new [Card.RegularCard RegularCardValue.Two RegularCardSuite.Heart,
          Card.RegularCard RegularCardValue.Two RegularCardSuite.Diamond,
          Card.RegularCard RegularCardValue.Two RegularCardSuite.Spade,
          Card.RegularCard RegularCardValue.Two RegularCardSuite.Clubs])
        (Hand.new [Card.RegularCard RegularCardValue.Three RegularCardSuite.Heart]) = some true ∧
    Hand.can_be_played_on
        (Hand.new [Card.RegularCard RegularCardValue.Three RegularCardSuite.Heart])
        (Hand.new [Card.RegularCard RegularCardValue.Two RegularCardSuite.Heart,
          Card.RegularCard RegularCardValue.Two RegularCardSuite.Diamond,
          Card.RegularCard RegularCardValue.Two RegularCardSuite.Spade,
          Card.RegularCard RegularCardValue.Two RegularCardSuite.Clubs]) = some false :=
  bomb_dominance _ _ (Or.inl (by decide)) HandType.SingleCard (by decide)
    (by decide) (by decide)

/-- Claim C10 (amended): the src/hand.rs comparator and the src/main.rs
draft agree on every pair of hands with equal hand_type; they differ only
through the missing hand-type equality test in the draft. -/
theorem can_be_played_on_drafts_agree (h o : Hand)
    (hty : h.hand_type = o.hand_type) :
    h.can_be_played_on o = Main.can_be_played_on h o := by
  unfold Hand.can_be_played_on Main.can_be_played_on
  cases hb : h.is_bomb with
  | none => rfl
  | some bv =>
    cases bv with
    | true => rfl
    | false =>
      cases ht : h.hand_type with
      | none =>
        exfalso
        unfold Hand.is_bomb at hb
        rw [ht] at hb
        simp at hb
      | some st =>
        have hto : o.hand_type = some st := hty.symm.trans ht
        simp only [hto, eq_self_iff_true, if_true]

/-- Claim C10 witness: on two single-card hands of equal type the two
comparators agree. -/
theorem can_be_played_on_drafts_agree_witness :
    Hand.can_be_played_on
        (Hand.new [Card.RegularCard RegularCardValue.Three RegularCardSuite.Heart])
        (Hand.new [Card.RegularCard RegularCardValue.Two RegularCardSuite.Heart]) =
    Main.can_be_played_on
        (Hand.new [Card.RegularCard RegularCardValue.Three RegularCardSuite.Heart])
        (Hand.new [Card.RegularCard RegularCardValue.Two RegularCardSuite.Heart]) :=
  can_be_played_on_drafts_agree _ _ (by decide)

/-- Claim C10 counterexample: a FullHouse of Nines over Threes cannot be
played on a mixed-suite Straight to Six under src/hand.rs, but the
src/main.rs draft allows it, so the two are not extensionally equal. -/
theorem can_be_played_on_drafts_differ :
    Hand.can_be_played_on
        (Hand.new [Card.RegularCard RegularCardValue.Three RegularCardSuite.Heart,
          Card.RegularCard RegularCardValue.Three RegularCardSuite.Diamond,
          Card.RegularCard RegularCardValue.Nine RegularCardSuite.Heart,
          Card.RegularCard RegularCardValue.Nine RegularCardSuite.Diamond,
          Card.RegularCard RegularCardValue.Nine RegularCardSuite.Spade])
        (Hand.new [Card.RegularCard RegularCardValue.Two RegularCardSuite.Clubs,
          Card.RegularCard RegularCardValue.Three RegularCardSuite.Spade,
          Card.RegularCard RegularCardValue.Four RegularCardSuite.Heart,
          Card.RegularCard RegularCardValue.Five RegularCardSuite.Heart,
          Card.RegularCard RegularCardValue.Six RegularCardSuite.Heart]) ≠
    Main.can_be_played_on
        (Hand.new [Card.RegularCard RegularCardValue.Three RegularCardSuite.Heart,
          Card.RegularCard RegularCardValue.Three RegularCardSuite.Diamond,
          Card.RegularCard RegularCardValue.Nine RegularCardSuite.Heart,
          Card.RegularCard RegularCardValue.Nine RegularCardSuite.Diamond,
          Card.RegularCard RegularCardValue.Nine RegularCardSuite.Spade])
        (Hand.new [Card.RegularCard RegularCardValue.Two RegularCardSuite.Clubs,
          Card.RegularCard RegularCardValue.Three RegularCardSuite.Spade,
          Card.RegularCard RegularCardValue.Four RegularCardSuite.Heart,
          Card.RegularCard RegularCardValue.Five RegularCardSuite.Heart,
          Card.RegularCard RegularCardValue.Six RegularCardSuite.Heart]) := by
  decide

/-- Claim C4: on every non-empty hand holding only Dragon, Dog and
Phoenix cards, is_valid_straight_of_pairs panics (the unwrap of the last
card's missing numeric value) instead of returning false. -/
theorem straight_of_pairs_panics_without_numeric_cards (h : Hand)
    (hne : h.cards ≠ [])
    (hall : ∀ c ∈ h.cards,
      c = Card.SpecialCard SpecialCardType.Dragon ∨
      c = Card.SpecialCard SpecialCardType.Dog ∨
      c = Card.SpecialCard SpecialCardType.Phoenix) :
    h.is_valid_straight_of_pairs = none := by
  have hlast : h.cards.getLast? = some (h.cards.getLast hne) :=
    List.getLast?_eq_getLast h.cards hne
  have hnv : (h.cards.getLast hne).numeric_value = none := by
    rcases hall _ (List.getLast_mem hne) with h1 | h1 | h1 <;> rw [h1] <;> rfl
  unfold Hand.is_valid_straight_of_pairs lastNumericUnwrapped
  simp only [hlast, hnv]

/-- Claim C4 witness: the singleton Phoenix hand makes the predicate
panic. -/
theorem straight_of_pairs_panics_witness :
    Hand.is_valid_straight_of_pairs ⟨[Card.SpecialCard SpecialCardType.Phoenix]⟩ = none :=
  straight_of_pairs_panics_without_numeric_cards
    ⟨[Card.SpecialCard SpecialCardType.Phoenix]⟩ (by decide) (by decide)

/-- Claim C5: the sorted hand Phoenix, Phoenix, 2♥, 2♦, 2♠ holds the
numeric value 2 on three actual cards, yet is_valid_straight_of_pairs
accepts it: the over-full group is dropped from the count map, so the
range loop sees zero cards at value 2 and fills the pair with the two
phoenixes. -/
theorem straight_of_pairs_accepts_overfull_value :
    ((Hand.new [Card.SpecialCard SpecialCardType.Phoenix,
        Card.SpecialCard SpecialCardType.Phoenix,
        Card.RegularCard RegularCardValue.Two RegularCardSuite.Heart,
        Card.RegularCard RegularCardValue.Two RegularCardSuite.Diamond,
        Card.RegularCard RegularCardValue.Two RegularCardSuite.Spade]).cards.countP
      (fun c => c.numeric_value == some 2)) = 3 ∧
    Hand.is_valid_straight_of_pairs
      (Hand.new [Card.SpecialCard SpecialCardType.Phoenix,
        Card.SpecialCard SpecialCardType.Phoenix,
        Card.RegularCard RegularCardValue.Two RegularCardSuite.Heart,
        Card.RegularCard RegularCardValue.Two RegularCardSuite.Diamond,
        Card.RegularCard RegularCardValue.Two RegularCardSuite.Spade]) = some true := by
  decide

/-- Claim C9: every single-card hand classifies as SingleCard, and
relevant_card_value returns the card's value for a RegularCard but panics
(rather than returning None) for each of the four special cards. -/
theorem single_card_hand_relevant_value (c : Card) :
    (Hand.mk [c]).hand_type = some (some HandType.SingleCard) ∧
    (Hand.mk [c]).relevant_card_value = c.value.map some := by
  cases c with
  | SpecialCard t => cases t <;> exact ⟨rfl, rfl⟩
  | RegularCard v s => exact ⟨rfl, rfl⟩

/-- Claim C1 counterexample: the all-heart run Two..Six does not classify
as a plain Straight. -/
theorem heart_run_not_plain_straight :
    (Hand.new [Card.RegularCard RegularCardValue.Two RegularCardSuite.Heart,
      Card.RegularCard RegularCardValue.Three RegularCardSuite.Heart,
      Card.RegularCard RegularCardValue.Four RegularCardSuite.Heart,
      Card.RegularCard RegularCardValue.Five RegularCardSuite.Heart,
      Card.RegularCard RegularCardValue.Six RegularCardSuite.Heart]).hand_type ≠
      some (some HandType.Straight) := by
  decide

/-- Claim C1 (amended): the all-heart run Two..Six classifies as a
StraightBomb (the bomb test precedes the plain Straight test and all five
cards share the Heart suite), with relevant value Six. -/
theorem heart_run_classifies_as_straight_bomb :
    (Hand.new [Card.RegularCard RegularCardValue.Two RegularCardSuite.Heart,
      Card.RegularCard RegularCardValue.Three RegularCardSuite.Heart,
      Card.RegularCard RegularCardValue.Four RegularCardSuite.Heart,
      Card.RegularCard RegularCardValue.Five RegularCardSuite.Heart,
      Card.RegularCard RegularCardValue.Six RegularCardSuite.Heart]).hand_type =
      some (some HandType.StraightBomb) ∧
    (Hand.new [Card.RegularCard RegularCardValue.Two RegularCardSuite.Heart,
      Card.RegularCard RegularCardValue.Three RegularCardSuite.Heart,
      Card.RegularCard RegularCardValue.Four RegularCardSuite.Heart,
      Card.RegularCard RegularCardValue.Five RegularCardSuite.Heart,
      Card.RegularCard RegularCardValue.Six RegularCardSuite.Heart]).relevant_card_value =
      some (some RegularCardValue.Six) := by
  decide

/-- Claim C2 counterexample: the hand 2♥ 2♣ 4♦ 4♠ Phoenix does not get
relevant value Two. -/
theorem phoenix_full_house_relevant_not_two :
    (Hand.new [Card.RegularCard RegularCardValue.Two RegularCardSuite.Heart,
      Card.RegularCard RegularCardValue.Two RegularCardSuite.Clubs,
      Card.RegularCard RegularCardValue.Four RegularCardSuite.Diamond,
      Card.RegularCard RegularCardValue.Four RegularCardSuite.Spade,
      Card.SpecialCard SpecialCardType.Phoenix]).relevant_card_value ≠
      some (some RegularCardValue.Two) := by
  decide

/-- Claim C2 (amended): the hand 2♥ 2♣ 4♦ 4♠ Phoenix classifies as a
FullHouse, and relevant_card_value takes index 3 of the sorted hand
(Phoenix first), which is a Four: the code resolves the ambiguous split
as Phoenix completing the Fours, not the Twos. -/
theorem phoenix_full_house_classification :
    (Hand.new [Card.RegularCard RegularCardValue.Two RegularCardSuite.Heart,
      Card.RegularCard RegularCardValue.Two RegularCardSuite.Clubs,
      Card.RegularCard RegularCardValue.Four RegularCardSuite.Diamond,
      Card.RegularCard RegularCardValue.Four RegularCardSuite.Spade,
      Card.SpecialCard SpecialCardType.Phoenix]).hand_type =
      some (some HandType.FullHouse) ∧
    (Hand.new [Card.RegularCard RegularCardValue.Two RegularCardSuite.Heart,
      Card.RegularCard RegularCardValue.Two RegularCardSuite.Clubs,
      Card.RegularCard RegularCardValue.Four RegularCardSuite.Diamond,
      Card.RegularCard RegularCardValue.Four RegularCardSuite.Spade,
      Card.SpecialCard SpecialCardType.Phoenix]).relevant_card_value =
      some (some RegularCardValue.Four) := by
  decide

/-- Claim C3 counterexample: a regular card played on top of the Phoenix
is explicitly allowed by the match (true), not refused. -/
theorem regular_on_phoenix_not_refused :
    Card.can_be_played_on_top_of_single_card
      (Card.RegularCard RegularCardValue.Two RegularCardSuite.Heart)
      (Card.SpecialCard SpecialCardType.Phoenix) ≠ some false := by
  simp [Card.can_be_played_on_top_of_single_card]

/-- Claim C3 (amended): the Phoenix beats every regular card, and every
regular card can in turn be played on top of the Phoenix: the code lists
(RegularCard, Phoenix) => true explicitly, so the reverse direction is
not the negation of the forward one. -/
theorem phoenix_regular_single_card_comparison (v : RegularCardValue)
    (s : RegularCardSuite) :
    Card.can_be_played_on_top_of_single_card (Card.SpecialCard SpecialCardType.Phoenix)
      (Card.RegularCard v s) = some true ∧
    Card.can_be_played_on_top_of_single_card (Card.RegularCard v s)
      (Card.SpecialCard SpecialCardType.Phoenix) = some true := by
  constructor <;> simp [Card.can_be_played_on_top_of_single_card]

/-- Claim C8 counterexample: comparing the Dragon with a second Dragon
does not panic; the Dragon-beats-everything arm returns true. -/
theorem dragon_pair_comparison_returns :
    Card.can_be_played_on_top_of_single_card (Card.SpecialCard SpecialCardType.Dragon)
      (Card.SpecialCard SpecialCardType.Dragon) = some true := by
  simp [Card.can_be_played_on_top_of_single_card]

/-- Claim C8 (amended): of the four equal-special-card comparisons only
(Phoenix, Phoenix) falls through to the panicking catch-all; the Dragon
pair returns true and the One and Dog pairs return false through their
catch-all arms. -/
theorem equal_special_card_comparisons :
    Card.can_be_played_on_top_of_single_card (Card.SpecialCard SpecialCardType.Phoenix)
      (Card.SpecialCard SpecialCardType.Phoenix) = none ∧
    Card.can_be_played_on_top_of_single_card (Card.SpecialCard SpecialCardType.Dragon)
      (Card.SpecialCard SpecialCardType.Dragon) = some true ∧
    Card.can_be_played_on_top_of_single_card (Card.SpecialCard SpecialCardType.One)
      (Card.SpecialCard SpecialCardType.One) = some false ∧
    Card.can_be_played_on_top_of_single_card (Card.SpecialCard SpecialCardType.Dog)
      (Card.SpecialCard SpecialCardType.Dog) = some false := by
  refine ⟨?_, ?_, ?_, ?_⟩ <;> simp [Card.can_be_played_on_top_of_single_card]

end Tichu
